import Mathlib

/-!
Verification of the RoofTracer permit-ingestion core against its
natural-language specification.  The definitions below are a shallow
embedding of the TypeScript source:

* `server/connectors/socrata.ts` and `server/connectors/arcgis.ts`
  (normalization, address parsing, resumable cursor);
* `server/connectors/base.ts` (`exponentialBackoff`);
* `server/storage.ts` (`upsertPermit`, `getPermitByFingerprint`,
  `getPermitStats`) and `server/services/geocoding.ts`;
* `server/routes.ts` (`runIngestion` final-state cursor update);
* `server/index.ts` (`runContinuousBackfill` inner-loop exhaustion rule);
* `shared/schema.ts` (`insertPermitSchema` omitting `id` and `ingest_ts`).

Machine integers are modelled as `Nat` with explicit reduction modulo
`2^32` where the algorithm (SHA-256) works on 32-bit words.  JavaScript
`null`/`undefined` string fields are modelled as `Option String`; the
JavaScript truthiness rules used by the code (`""` and `0` are falsy)
are made explicit in the helpers.
-/

set_option maxRecDepth 200000

namespace RoofTracer

/-! ## JavaScript string helpers -/

/-- JavaScript truthiness for an optional string: `null`, `undefined`
and `""` are falsy. -/
def jsTruthyStr : Option String → Bool
  | none => false
  | some s => s ≠ ""

/-- JavaScript `a || b` on optional strings: the left value wins when
it is truthy (present and non-empty), otherwise the right value. -/
def jsOrStr (a b : Option String) : Option String :=
  if jsTruthyStr a then a else b

/-- JavaScript `s || undefined` used for missing address parts:
an empty string becomes an absent value. -/
def jsOrUndef (s : String) : Option String :=
  if s = "" then none else some s

/-! ## SHA-256 (32-bit words as `Nat` modulo `2^32`)

`generateFingerprint` lives in `server/normalization/fingerprint.ts`,
which is not part of the provided sources; per the specification it is
SHA-256 of the joined normalized components, serialized as lowercase
hex.  The hash itself is implemented here in full so the fingerprint
model is executable. -/

def mask32 (x : Nat) : Nat := x % 4294967296

def rotr32 (n x : Nat) : Nat := mask32 ((x >>> n) ||| (x <<< (32 - n)))

def bigSigma0 (x : Nat) : Nat := rotr32 2 x ^^^ rotr32 13 x ^^^ rotr32 22 x

def bigSigma1 (x : Nat) : Nat := rotr32 6 x ^^^ rotr32 11 x ^^^ rotr32 25 x

def smallSigma0 (x : Nat) : Nat := rotr32 7 x ^^^ rotr32 18 x ^^^ (x >>> 3)

def smallSigma1 (x : Nat) : Nat := rotr32 17 x ^^^ rotr32 19 x ^^^ (x >>> 10)

def chFn (x y z : Nat) : Nat := (x &&& y) ^^^ ((4294967295 ^^^ x) &&& z)

def majFn (x y z : Nat) : Nat := (x &&& y) ^^^ (x &&& z) ^^^ (y &&& z)

def sha256K : Array Nat := #[
  1116352408, 1899447441, 3049323471, 3921009573, 961987163,
  1508970993, 2453635748, 2870763221, 3624381080, 310598401,
  607225278, 1426881987, 1925078388, 2162078206, 2614888103,
  3248222580, 3835390401, 4022224774, 264347078, 604807628,
  770255983, 1249150122, 1555081692, 1996064986, 2554220882,
  2821834349, 2952996808, 3210313671, 3336571891, 3584528711,
  113926993, 338241895, 666307205, 773529912, 1294757372,
  1396182291, 1695183700, 1986661051, 2177026350, 2456956037,
  2730485921, 2820302411, 3259730800, 3345764771, 3516065817,
  3600352804, 4094571909, 275423344, 430227734, 506948616,
  659060556, 883997877, 958139571, 1322822218, 1537002063,
  1747873779, 1955562222, 2024104815, 2227730452, 2361852424,
  2428436474, 2756734187, 3204031479, 3329325298]

structure Sha256State where
  a : Nat
  b : Nat
  c : Nat
  d : Nat
  e : Nat
  f : Nat
  g : Nat
  h : Nat
deriving Repr, DecidableEq

def sha256Init : Sha256State :=
  ⟨1779033703, 3144134277, 1013904242,
   2773480762, 1359893119, 2600822924,
   528734635, 1541459225⟩

/-- Big-endian bytes of a natural number, fixed width. -/
def natToBytesBE (numBytes n : Nat) : List Nat :=
  (List.range numBytes).map fun i => (n >>> (8 * (numBytes - 1 - i))) % 256

/-- SHA-256 padding: append `0x80`, zero bytes to 56 mod 64, then the
bit length as 8 big-endian bytes. -/
def sha256Pad (msg : List Nat) : List Nat :=
  let zeros := (119 - msg.length % 64) % 64
  msg ++ [0x80] ++ List.replicate zeros 0 ++ natToBytesBE 8 (msg.length * 8)

/-- Split a list into chunks of 64 elements (fuel-based structural
recursion so the kernel can evaluate it; `fuel = l.length` suffices
since each step drops at least one element). -/
def chunksAux : Nat → List Nat → List (List Nat)
  | 0, _ => []
  | _, [] => []
  | fuel + 1, x :: xs => ((x :: xs).take 64) :: chunksAux fuel ((x :: xs).drop 64)

/-- Split a list into chunks of 64 elements. -/
def chunks64 (l : List Nat) : List (List Nat) := chunksAux l.length l

/-- The 16 big-endian 32-bit words of one 64-byte block. -/
def blockWords (block : List Nat) : Array Nat :=
  ((List.range 16).map fun i =>
    (block.getD (4 * i) 0) <<< 24 ||| (block.getD (4 * i + 1) 0) <<< 16 |||
    (block.getD (4 * i + 2) 0) <<< 8 ||| block.getD (4 * i + 3) 0).toArray

/-- Message-schedule extension to 64 words. -/
def extendWords (w : Array Nat) : Array Nat :=
  (List.range 48).foldl (fun acc _ =>
    let t := acc.size
    acc.push (mask32 (smallSigma1 (acc.getD (t - 2) 0) + acc.getD (t - 7) 0 +
      smallSigma0 (acc.getD (t - 15) 0) + acc.getD (t - 16) 0))) w

def sha256Round (w : Array Nat) (st : Sha256State) (t : Nat) : Sha256State :=
  let t1 := mask32 (st.h + bigSigma1 st.e + chFn st.e st.f st.g +
    sha256K.getD t 0 + w.getD t 0)
  let t2 := mask32 (bigSigma0 st.a + majFn st.a st.b st.c)
  ⟨mask32 (t1 + t2), st.a, st.b, st.c, mask32 (st.d + t1), st.e, st.f, st.g⟩

def sha256Block (st : Sha256State) (block : List Nat) : Sha256State :=
  let w := extendWords (blockWords block)
  let r := (List.range 64).foldl (sha256Round w) st
  ⟨mask32 (st.a + r.a), mask32 (st.b + r.b), mask32 (st.c + r.c),
   mask32 (st.d + r.d), mask32 (st.e + r.e), mask32 (st.f + r.f),
   mask32 (st.g + r.g), mask32 (st.h + r.h)⟩

def hexDigit (n : Nat) : Char :=
  if n < 10 then Char.ofNat (48 + n) else Char.ofNat (87 + n)

/-- Lowercase hex of a 32-bit word, 8 digits. -/
def wordToHex (w : Nat) : List Char :=
  (List.range 8).map fun i => hexDigit ((w >>> (4 * (7 - i))) % 16)

def sha256StateHex (st : Sha256State) : String :=
  String.mk ([st.a, st.b, st.c, st.d, st.e, st.f, st.g, st.h].flatMap wordToHex)

/-- SHA-256 of a byte list, as lowercase hex. -/
def sha256BytesHex (msg : List Nat) : String :=
  sha256StateHex ((chunks64 (sha256Pad msg)).foldl sha256Block sha256Init)

/-- UTF-8 bytes of a string (the same encoding as `String.toUTF8`,
computed over the character list so the kernel can evaluate it). -/
def strBytes (s : String) : List Nat :=
  (s.data.flatMap String.utf8EncodeChar).map (·.toNat)

/-- SHA-256 of the UTF-8 encoding of a string, as lowercase hex
(matching Node's `createHash("sha256").update(s).digest("hex")`). -/
def sha256hex (s : String) : String :=
  sha256BytesHex (strBytes s)

/-! ## Fingerprint (§3 of the spec)

`generateFingerprint` is implemented in
`server/normalization/fingerprint.ts`, which is not among the provided
sources (only its callers in the two connectors are).

Modelled from the spec: SHA-256 over the `"|"`-joined sequence
`[lower(trim(street)), lower(trim(city)), upper(trim(state)),
trim(parcel_id), trim(issue_date), upper(trim(permit_type))]`, any
absent component contributing the empty string, serialized as lowercase
hex. -/

/-- ASCII lowercase of a string (JavaScript `toLowerCase` restricted to
the ASCII range, which is all that reaches the fingerprint here).
Implemented over the character list so the kernel can evaluate it. -/
def asciiLower (s : String) : String := String.mk (s.data.map Char.toLower)

/-- ASCII uppercase of a string. -/
def asciiUpper (s : String) : String := String.mk (s.data.map Char.toUpper)

/-- JavaScript `trim`: strip leading and trailing whitespace. -/
def jsTrim (s : String) : String :=
  String.mk (((s.data.dropWhile Char.isWhitespace).reverse.dropWhile
    Char.isWhitespace).reverse)

/-- JavaScript `split(",")` over the character list. -/
def splitCommaAux : List Char → List Char → List String
  | acc, [] => [String.mk acc.reverse]
  | acc, c :: rest =>
    if c = ',' then String.mk acc.reverse :: splitCommaAux [] rest
    else splitCommaAux (c :: acc) rest

def splitComma (s : String) : List String := splitCommaAux [] s.data

/-- `Array.prototype.join(sep)`. -/
def joinSep (sep : String) : List String → String
  | [] => ""
  | [x] => x
  | x :: y :: rest => x ++ sep ++ joinSep sep (y :: rest)

/-- `lower(trim(x))` with an absent component contributing `""`. -/
def normLower : Option String → String
  | none => ""
  | some s => asciiLower (jsTrim s)

/-- `upper(trim(x))` with an absent component contributing `""`. -/
def normUpper : Option String → String
  | none => ""
  | some s => asciiUpper (jsTrim s)

/-- `trim(x)` with an absent component contributing `""`. -/
def normTrim : Option String → String
  | none => ""
  | some s => jsTrim s

/-- The arguments the connectors pass to `generateFingerprint`. -/
structure FingerprintInput where
  street : Option String := none
  city : Option String := none
  state : Option String := none
  parcelId : Option String := none
  issueDate : Option String := none
  permitType : Option String := none
deriving Repr, DecidableEq

/-- The normalized component tuple of §3 (case/trim rules applied). -/
def fingerprintTuple (i : FingerprintInput) : List String :=
  [normLower i.street, normLower i.city, normUpper i.state,
   normTrim i.parcelId, normTrim i.issueDate, normUpper i.permitType]

/-- The `"|"`-joined preimage that is hashed. -/
def fingerprintPreimage (i : FingerprintInput) : String :=
  joinSep "|" (fingerprintTuple i)

/-- Modelled from the spec: `generateFingerprint` of
`server/normalization/fingerprint.ts`. -/
def generateFingerprint (i : FingerprintInput) : String :=
  sha256hex (fingerprintPreimage i)

/-! ## Address parsing (`SocrataConnector.parseAddress`,
`ArcGISConnector.parseAddress`)

Both connectors carry the same parsing logic: split on commas and trim;
the whole first component becomes `street`; the second component (when
non-empty) becomes `city`; the joined remainder after the first comma
is scanned for the first `\b[A-Z]{2}\b` match (state) and the first
`\b\d{5}(-\d{4})?\b` match (zip).  Neither connector extracts a house
number. -/

/-- The result shape of `parseAddress` (all keys optional). -/
structure ParsedAddress where
  house_number : Option String := none
  street : Option String := none
  city : Option String := none
  state : Option String := none
  zip : Option String := none
deriving Repr, DecidableEq

/-- JavaScript regex `\w` (no unicode flag): ASCII letter, digit or
underscore. -/
def isWordChar (c : Char) : Bool := c.isAlpha || c.isDigit || c = '_'

/-- A `\b` word boundary holds before the current position given the
previous character (`none` at the start of the string). -/
def boundaryBefore : Option Char → Bool
  | none => true
  | some p => !isWordChar p

/-- A `\b` word boundary holds after the match given the remaining
characters. -/
def boundaryAfter : List Char → Bool
  | [] => true
  | c :: _ => !isWordChar c

/-- Leftmost match of `/\b([A-Z]{2})\b/`. -/
def findStateAux : Option Char → List Char → Option String
  | prev, c1 :: c2 :: rest =>
    if boundaryBefore prev && c1.isUpper && c2.isUpper && boundaryAfter rest
    then some (String.mk [c1, c2])
    else findStateAux (some c1) (c2 :: rest)
  | _, _ => none

def findStateMatch (s : String) : Option String := findStateAux none s.data

/-- Attempt of `/\b(\d{5}(?:-\d{4})?)\b/` at the current position
(boundary before already checked): five digits, then greedily the
optional `-dddd` group, then a boundary — falling back to the bare five
digits when the long form fails its trailing boundary. -/
def zipMatchAt (l : List Char) : Option String :=
  let d5 := l.take 5
  if d5.length = 5 && d5.all Char.isDigit then
    let rest := l.drop 5
    match rest with
    | '-' :: r =>
      let d4 := r.take 4
      if d4.length = 4 && d4.all Char.isDigit && boundaryAfter (r.drop 4) then
        some (String.mk (d5 ++ '-' :: d4))
      else some (String.mk d5)
    | _ => if boundaryAfter rest then some (String.mk d5) else none
  else none

/-- Leftmost match of `/\b(\d{5}(?:-\d{4})?)\b/`. -/
def findZipAux : Option Char → List Char → Option String
  | prev, c :: rest =>
    match (if boundaryBefore prev then zipMatchAt (c :: rest) else none) with
    | some m => some m
    | none => findZipAux (some c) rest
  | _, [] => none

def findZipMatch (s : String) : Option String := findZipAux none s.data

/-- Body shared by both connectors for a non-empty address string
(`socrata.ts` lines 258-290, `arcgis.ts` lines 303-330). -/
def parseAddressStr (addressStr : String) : ParsedAddress :=
  let parts := (splitComma addressStr).map jsTrim
  if 2 ≤ parts.length then
    let streetPart := parts.getD 0 ""
    let cityStateZip := joinSep ", " (parts.drop 1)
    { street := some streetPart,
      city := jsOrUndef (parts.getD 1 ""),
      state := findStateMatch cityStateZip,
      zip := findZipMatch cityStateZip }
  else
    { street := some addressStr }

/-- `SocrataConnector.parseAddress`: a falsy (absent or empty) address
yields `{}`. -/
def socrataParseAddress : Option String → ParsedAddress
  | none => {}
  | some a => if a = "" then {} else parseAddressStr a

/-- `ArcGISConnector.parseAddress` (same logic). -/
def arcgisParseAddress : Option String → ParsedAddress
  | none => {}
  | some a => if a = "" then {} else parseAddressStr a

/-! ## `SocrataConnector.normalize` (fingerprint-relevant slice)

The raw row's field alternates are resolved with JavaScript `||`
(first present non-empty value).  The address may arrive as a plain
string or as a (possibly JSON-encoded) `human_address` object; lines
153-197 of `socrata.ts` reduce all accepted forms to a display string,
modelled here as the already-resolved `addressRaw` input field. -/

structure SocrataRow where
  permit_type : Option String := none
  permittype : Option String := none
  type : Option String := none
  issue_date : Option String := none
  issued_date : Option String := none
  date : Option String := none
  parcel_id : Option String := none
  parcel : Option String := none
  apn : Option String := none
  /-- `raw.address || raw.full_address || raw.site_address || raw.location`,
  reduced to a display string per lines 153-197. -/
  addressRaw : Option String := none
deriving Repr, DecidableEq

def socrataPermitType (r : SocrataRow) : Option String :=
  jsOrStr r.permit_type (jsOrStr r.permittype (jsOrStr r.type none))

def socrataIssueDate (r : SocrataRow) : Option String :=
  jsOrStr r.issue_date (jsOrStr r.issued_date (jsOrStr r.date none))

def socrataParcelId (r : SocrataRow) : Option String :=
  jsOrStr r.parcel_id (jsOrStr r.parcel (jsOrStr r.apn none))

/-- The slice of a `NormalizedPermit` that the fingerprint claims are
about. -/
structure PermitSlice where
  permit_type : Option String
  issue_date : Option String
  address_parsed : ParsedAddress
  parcel_id : Option String
  fingerprint : String
deriving Repr, DecidableEq

def socrataNormalize (r : SocrataRow) : PermitSlice :=
  let permitType := socrataPermitType r
  let issueDate := socrataIssueDate r
  let parcelId := socrataParcelId r
  let addressParsed := socrataParseAddress r.addressRaw
  { permit_type := permitType,
    issue_date := issueDate,
    address_parsed := addressParsed,
    parcel_id := parcelId,
    fingerprint := generateFingerprint
      { street := addressParsed.street,
        city := addressParsed.city,
        state := addressParsed.state,
        parcelId := parcelId,
        issueDate := issueDate,
        permitType := permitType } }

/-! ## `ArcGISConnector.normalize` (fingerprint-relevant slice)

Feature-service dates are either strings or numeric epoch
milliseconds; the other probed attributes are strings.  Note the
asymmetry in the source: the stored record gets
`formatArcGISDate(issueDate)` while the fingerprint gets
`String(issueDate)`. -/

/-- A JavaScript attribute value that may be a string or a number
(dates arrive as epoch milliseconds when numeric). -/
inductive AttrVal where
  | str (s : String)
  | num (n : Nat)
deriving Repr, DecidableEq

/-- JavaScript truthiness: `""` and `0` are falsy. -/
def jsTruthyAttr : Option AttrVal → Bool
  | none => false
  | some (.str s) => s ≠ ""
  | some (.num n) => n ≠ 0

/-- JavaScript `a || b` on optional attribute values. -/
def jsOrAttr (a b : Option AttrVal) : Option AttrVal :=
  if jsTruthyAttr a then a else b

/-- JavaScript `String(v)`. -/
def jsStringOfAttr : AttrVal → String
  | .str s => s
  | .num n => toString n

/-- `issueDate ? String(issueDate) : undefined` (the chain result is
`null` or truthy, so the ternary is a plain map). -/
def jsStringOfOpt : Option AttrVal → Option String
  | none => none
  | some v => some (jsStringOfAttr v)

/-- Proleptic-Gregorian civil date from days since 1970-01-01
(Hinnant's algorithm, valid for non-negative day counts). -/
def civilFromDays (days : Nat) : Nat × Nat × Nat :=
  let z := days + 719468
  let era := z / 146097
  let doe := z % 146097
  let yoe := (doe - doe / 1460 + doe / 36524 - doe / 146096) / 365
  let doy := doe - (365 * yoe + yoe / 4 - yoe / 100)
  let mp := (5 * doy + 2) / 153
  let d := doy - (153 * mp + 2) / 5 + 1
  let m := if mp < 10 then mp + 3 else mp - 9
  (if m ≤ 2 then yoe + era * 400 + 1 else yoe + era * 400, m, d)

def pad2 (n : Nat) : String := if n < 10 then "0" ++ toString n else toString n

/-- `new Date(ms).toISOString().split("T")[0]` for non-negative epoch
milliseconds. -/
def isoDateFromMs (ms : Nat) : String :=
  let c := civilFromDays (ms / 86400000)
  toString c.1 ++ "-" ++ pad2 c.2.1 ++ "-" ++ pad2 c.2.2

/-- `ArcGISConnector.formatArcGISDate`: strings pass through, numbers
are epoch milliseconds converted to `YYYY-MM-DD` in UTC. -/
def formatArcGISDate : AttrVal → String
  | .str s => s
  | .num n => isoDateFromMs n

/-- `issueDate ? this.formatArcGISDate(issueDate) : null`. -/
def formatDateOpt : Option AttrVal → Option String
  | none => none
  | some v => some (formatArcGISDate v)

/-- The probed feature attributes (fingerprint-relevant subset plus
`OBJECTID`). -/
structure ArcAttrs where
  PermitType : Option String := none
  PERMIT_TYPE : Option String := none
  TYPE : Option String := none
  PermitTypeDesc : Option String := none
  ActiveBuilding_ExcelToTable_Sco : Option String := none
  IssueDate : Option AttrVal := none
  ISSUE_DATE : Option AttrVal := none
  IssuedDate : Option AttrVal := none
  APPLIED_DATE : Option AttrVal := none
  ActiveBuilding_ExcelToTable_Dat : Option AttrVal := none
  Address : Option String := none
  ADDRESS : Option String := none
  SiteAddress : Option String := none
  FullAddress : Option String := none
  ActiveBuilding_ExcelToTable_Add : Option String := none
  ParcelID : Option String := none
  PARCEL_ID : Option String := none
  APN : Option String := none
  ActiveBuilding_ExcelToTable_APN : Option String := none
  ASSESSORS_Parcel_point_APN : Option String := none
  OBJECTID : Option Nat := none
deriving Repr, DecidableEq

def arcgisPermitType (a : ArcAttrs) : Option String :=
  jsOrStr a.PermitType (jsOrStr a.PERMIT_TYPE (jsOrStr a.TYPE
    (jsOrStr a.PermitTypeDesc (jsOrStr a.ActiveBuilding_ExcelToTable_Sco none))))

def arcgisIssueDateRaw (a : ArcAttrs) : Option AttrVal :=
  jsOrAttr a.IssueDate (jsOrAttr a.ISSUE_DATE (jsOrAttr a.IssuedDate
    (jsOrAttr a.APPLIED_DATE (jsOrAttr a.ActiveBuilding_ExcelToTable_Dat none))))

def arcgisAddressRaw (a : ArcAttrs) : Option String :=
  jsOrStr a.Address (jsOrStr a.ADDRESS (jsOrStr a.SiteAddress
    (jsOrStr a.FullAddress (jsOrStr a.ActiveBuilding_ExcelToTable_Add none))))

def arcgisParcelId (a : ArcAttrs) : Option String :=
  jsOrStr a.ParcelID (jsOrStr a.PARCEL_ID (jsOrStr a.APN
    (jsOrStr a.ActiveBuilding_ExcelToTable_APN
      (jsOrStr a.ASSESSORS_Parcel_point_APN none))))

def arcgisNormalize (attrs : ArcAttrs) : PermitSlice :=
  let permitType := arcgisPermitType attrs
  let issueDate := arcgisIssueDateRaw attrs
  let parcelId := arcgisParcelId attrs
  let addressParsed := arcgisParseAddress (arcgisAddressRaw attrs)
  { permit_type := permitType,
    issue_date := formatDateOpt issueDate,
    address_parsed := addressParsed,
    parcel_id := parcelId,
    fingerprint := generateFingerprint
      { street := addressParsed.street,
        city := addressParsed.city,
        state := addressParsed.state,
        parcelId := parcelId,
        issueDate := jsStringOfOpt issueDate,
        permitType := permitType } }

/-- The claim-side reading of the §3 tuple: the fingerprint components
taken from the normalized record itself. -/
def sliceTuple (p : PermitSlice) : FingerprintInput :=
  { street := p.address_parsed.street,
    city := p.address_parsed.city,
    state := p.address_parsed.state,
    parcelId := p.parcel_id,
    issueDate := p.issue_date,
    permitType := p.permit_type }

/-! ## ArcGIS resumable cursor (`backfill` / `incremental` preamble) -/

/-- The cursor snapshot handed to a connector
(`ConnectorState` in `base.ts`). -/
structure ConnectorStateM where
  last_max_timestamp : Option String := none
  last_max_objectid : Option Nat := none
  last_issue_date : Option String := none
deriving Repr, DecidableEq

/-- `Math.max(state.last_max_objectid || 0, dbMaxObjectId || 0)`. -/
def startingObjectId (state : ConnectorStateM) (dbMax : Option Nat) : Nat :=
  max (state.last_max_objectid.getD 0) (dbMax.getD 0)

/-- Backfill `where` clause: `OBJECTID > {cursor}` when the starting
cursor is positive, otherwise none (the URL builder then sends
`where=1=1`). -/
def arcgisBackfillWhere (state : ConnectorStateM) (dbMax : Option Nat) :
    Option String :=
  if 0 < startingObjectId state dbMax then
    some ("OBJECTID > " ++ toString (startingObjectId state dbMax))
  else none

/-- Incremental `where` clause: the OBJECTID cursor when positive, else
a `lastEditDate` timestamp clause when a timestamp cursor is present,
else none. -/
def arcgisIncrementalWhere (state : ConnectorStateM) (dbMax : Option Nat) :
    Option String :=
  if 0 < startingObjectId state dbMax then
    some ("OBJECTID > " ++ toString (startingObjectId state dbMax))
  else if jsTruthyStr state.last_max_timestamp then
    some ("lastEditDate > timestamp \x27" ++
      state.last_max_timestamp.getD "" ++ "\x27")
  else none

/-- One step of the `if (objectId && objectId > maxObjectId)` carry
(a falsy — absent or zero — `OBJECTID` leaves the maximum alone). -/
def provStep (cur : Nat) : Option Nat → Nat
  | some n => if n ≠ 0 ∧ cur < n then n else cur
  | none => cur

def arcgisProvenanceIds (cur : Nat) : List (Option Nat) → List Nat
  | [] => []
  | o :: rest => provStep cur o :: arcgisProvenanceIds (provStep cur o) rest

/-! ## Storage adapter (`DatabaseStorage` in `server/storage.ts`)

The permit table is modelled as a list of rows plus a fresh-id counter
(the database-assigned opaque primary key) and a clock value (the
`defaultNow()` used for `ingest_ts`).  `insertPermitSchema` in
`shared/schema.ts` omits exactly `id` and `ingest_ts`, so an
`InsertPermit` carries every other column; drizzle's `.set(permit)`
overwrites every column present in the argument, `null` values
included (`undefined` columns would be skipped, but `runIngestion`
builds the insert object with every field explicitly present). -/

structure InsertPermit where
  source_id : Nat
  source_name : String := ""
  source_platform : String := ""
  source_record_id : String := ""
  permit_type : Option String := none
  work_description : Option String := none
  permit_status : Option String := none
  issue_date : Option String := none
  address_raw : Option String := none
  address_parsed : ParsedAddress := {}
  parcel_id : Option String := none
  owner_name : Option String := none
  contractor_name : Option String := none
  permit_value : Option String := none
  lat : Option String := none
  lon : Option String := none
  geom_geojson : Option String := none
  fingerprint : String
  is_roofing : Nat := 0
  provenance : String := ""
  raw_blob_path : Option String := none
deriving Repr, DecidableEq

/-- A stored permit row: the insertable columns plus the two columns
the insert schema omits. -/
structure PermitRow extends InsertPermit where
  id : Nat
  ingest_ts : Nat
deriving Repr, DecidableEq

structure PermitStore where
  rows : List PermitRow
  nextId : Nat
  now : Nat
deriving Repr, DecidableEq

/-- `getPermitByFingerprint`: first row whose fingerprint matches. -/
def getPermitByFingerprint (s : PermitStore) (fp : String) : Option PermitRow :=
  s.rows.find? (fun r => r.fingerprint = fp)

/-- `db.update(permits).set(permit)`: every insertable column is
overwritten; `id` and `ingest_ts` are untouched. -/
def applyInsert (p : InsertPermit) (r : PermitRow) : PermitRow :=
  { r with toInsertPermit := p }

/-- `upsertPermit`: look up by fingerprint; update the row with the
matching primary key when found, else insert a fresh row. -/
def upsertPermit (s : PermitStore) (p : InsertPermit) : PermitStore :=
  match getPermitByFingerprint s p.fingerprint with
  | some existing =>
    { s with rows := s.rows.map fun r =>
        if r.id = existing.id then applyInsert p r else r }
  | none =>
    { s with
      rows := s.rows ++ [{ toInsertPermit := p, id := s.nextId, ingest_ts := s.now }],
      nextId := s.nextId + 1 }

structure PermitStats where
  total : Nat
  with_coords : Nat
  roofing : Nat
deriving Repr, DecidableEq

/-- `getPermitStats`: `count(*)` plus the two filtered counts. -/
def getPermitStats (s : PermitStore) : PermitStats :=
  { total := s.rows.length,
    with_coords := (s.rows.filter fun r => r.lat.isSome && r.lon.isSome).length,
    roofing := (s.rows.filter fun r => r.is_roofing = 1).length }

/-- Database well-formedness: primary keys are unique and the id
sequence is ahead of every stored row (what `SERIAL`/identity columns
guarantee). -/
def StoreWF (s : PermitStore) : Prop :=
  (∀ r ∈ s.rows, r.id < s.nextId) ∧ (s.rows.map (fun r => r.id)).Nodup

instance (s : PermitStore) : Decidable (StoreWF s) := by
  unfold StoreWF; infer_instance

/-- Decimal digit-string parse (kernel-evaluable). -/
def parseNatChars (l : List Char) : Option Nat :=
  if l ≠ [] && l.all Char.isDigit then
    some (l.foldl (fun n c => n * 10 + (c.toNat - 48)) 0)
  else none

/-- Modelled from the spec: `getMaxSourceRecordId` (its implementation
is not among the provided sources; `replit.md` and §4.7 describe it as
casting `source_record_id` to integer before taking the maximum,
skipping records with a non-integer identifier). -/
def getMaxSourceRecordId (s : PermitStore) (sourceId : Nat) : Option Nat :=
  (s.rows.filterMap fun r =>
    if r.source_id = sourceId then parseNatChars r.source_record_id.data
    else none).max?

/-! ## `runIngestion` final cursor update (`server/routes.ts`)

During the stream the orchestrator folds the provenance
`max_objectid` values of the successfully upserted records
(`if (provenanceObjectId && (!maxObjectId || provenanceObjectId >
maxObjectId))`), and on clean completion writes
`last_max_objectid: maxObjectId || state.last_max_objectid || null`. -/

/-- JavaScript falsiness of a `number | null` variable: `null` or `0`. -/
def jsFalsyNum (o : Option Nat) : Prop := o.getD 0 = 0

instance (o : Option Nat) : Decidable (jsFalsyNum o) := by
  unfold jsFalsyNum; infer_instance

/-- One step of `if (provenanceObjectId && (!maxObjectId ||
provenanceObjectId > maxObjectId))`. -/
def trackStep (acc : Option Nat) (v : Nat) : Option Nat :=
  if v ≠ 0 ∧ (jsFalsyNum acc ∨ acc.getD 0 < v) then some v else acc

/-- The `maxObjectId` tracking fold over the provenance values seen. -/
def trackMaxObjectId (vals : List Nat) : Option Nat :=
  vals.foldl trackStep none

/-- `maxObjectId || state.last_max_objectid || null`. -/
def finalLastMaxObjectid (state : ConnectorStateM) (tracked : Option Nat) :
    Option Nat :=
  if jsFalsyNum tracked then
    (if jsFalsyNum state.last_max_objectid then none else state.last_max_objectid)
  else tracked

/-! ## Continuous sweep inner loop (`runContinuousBackfill` in
`server/index.ts`)

Each completed batch is summarized by the number of rows the portal
returned (`rows_fetched` from the state row) and the delta of
`getSourcePermitCount` around the batch (`permits_added`). -/

structure BatchResult where
  permitsAdded : Nat
  rowsFetched : Nat
deriving Repr, DecidableEq

/-- `permitsAdded === 0 && rowsFetched >= maxRows`: a full page that
saved nothing new. -/
def zeroSaveBatch (maxRows : Nat) (b : BatchResult) : Bool :=
  b.permitsAdded = 0 && maxRows ≤ b.rowsFetched

/-- The `consecutiveZeroSaves` counter update after one batch. -/
def sweepCounterStep (maxRows : Nat) (c : Nat) (b : BatchResult) : Nat :=
  if zeroSaveBatch maxRows b then c + 1 else 0

/-- The inner loop over successive batch results: returns the index of
the batch after which the loop breaks to the next source (`none` when
the supplied batch list runs out first).  Mirrors the source order:
bump-or-reset the counter, break at `3`, then break on a short page. -/
def runInnerLoop (maxRows : Nat) (c : Nat) : List BatchResult → Option Nat
  | [] => none
  | b :: rest =>
    let c2 := sweepCounterStep maxRows c b
    if 3 ≤ c2 then some 0
    else if b.rowsFetched < maxRows then some 0
    else (runInnerLoop maxRows c2 rest).map (· + 1)

/-- Specification-side count: the length of the maximal suffix of
all-zero-save batches. -/
def trailingZeroSaves (maxRows : Nat) (hist : List BatchResult) : Nat :=
  (hist.reverse.takeWhile (zeroSaveBatch maxRows)).length

/-- Specification-side stopping condition after the `k`-th batch of
`bs`, with `hist` the batches already processed before `bs`: a short
page, or at least three consecutive zero-save batches ending there. -/
def stopAfterH (maxRows : Nat) (hist bs : List BatchResult) (k : Nat) : Prop :=
  (bs.getD k ⟨0, 0⟩).rowsFetched < maxRows ∨
    3 ≤ trailingZeroSaves maxRows (hist ++ bs.take (k + 1))

instance (maxRows : Nat) (hist bs : List BatchResult) (k : Nat) :
    Decidable (stopAfterH maxRows hist bs k) := by
  unfold stopAfterH; infer_instance

/-- Specification-side stopping condition from a fresh source visit. -/
def stopAfter (maxRows : Nat) (bs : List BatchResult) (k : Nat) : Prop :=
  stopAfterH maxRows [] bs k

instance (maxRows : Nat) (bs : List BatchResult) (k : Nat) :
    Decidable (stopAfter maxRows bs k) := by
  unfold stopAfter; infer_instance

/-! ## HTTP fetch and `exponentialBackoff` (`connectors/base.ts`)

One HTTP attempt either produces a response with a status code and a
body, or fails at the network level.  `fetchSocrata` / `fetchArcGIS`
throw on any non-ok response (`response.ok` is `200..299`), so every
failure reaches `exponentialBackoff` as a thrown error. -/

inductive AttemptResult (α : Type) where
  | resp (status : Nat) (body : α)
  | netErr (msg : String)
deriving Repr, DecidableEq

/-- JavaScript `Response.ok`. -/
def responseOk (status : Nat) : Bool := 200 ≤ status && status ≤ 299

/-- `SocrataConnector.fetchSocrata`: ok responses yield the parsed
body, any other status throws. -/
def fetchSocrata {α : Type} : AttemptResult α → Except String α
  | .resp st body =>
    if responseOk st then .ok body
    else .error ("Socrata API error: " ++ toString st)
  | .netErr m => .error m

/-- `ArcGISConnector.fetchArcGIS`: same shape (a body with a top-level
`error` field additionally throws; modelled by the caller supplying a
`netErr`-style failure for that case). -/
def fetchArcGIS {α : Type} : AttemptResult α → Except String α
  | .resp st body =>
    if responseOk st then .ok body
    else .error ("ArcGIS API error: " ++ toString st)
  | .netErr m => .error m

/-- The retry loop of `exponentialBackoff`, with the wall-clock delays
abstracted away: `attempts n` is the outcome of the `n`-th call of
`fn`; the result is paired with the number of attempts made.  On any
caught error the loop retries while attempts remain. -/
def backoffGo {α : Type} (attempts : Nat → Except String α) :
    Nat → Nat → Except String α × Nat
  | attempt, remaining =>
    match attempts attempt with
    | .ok v => (.ok v, attempt + 1)
    | .error e =>
      match remaining with
      | 0 => (.error e, attempt + 1)
      | r + 1 => backoffGo attempts (attempt + 1) r

/-- `exponentialBackoff(fn, maxRetries)`: up to `maxRetries + 1`
attempts. -/
def exponentialBackoff {α : Type} (attempts : Nat → Except String α)
    (maxRetries : Nat) : Except String α × Nat :=
  backoffGo attempts 0 maxRetries

/-! ## Geocoding client (`server/services/geocoding.ts`)

The two caches (process-wide `Map` and the `geocode_cache` table) are
association lists keyed by the normalized address.  One upstream
interaction is scripted as a list of outcomes consumed in order, so
"how many times the service was contacted" is visible as the consumed
prefix of the script. -/

structure GeoResult where
  lat : Option String := none
  lon : Option String := none
  display_name : Option String := none
  error : Option String := none
deriving Repr, DecidableEq

structure GeoLoc where
  lat : String
  lon : String
  display_name : String
deriving Repr, DecidableEq

inductive GeoOutcome where
  /-- HTTP 200 with a JSON array of results. -/
  | ok (results : List GeoLoc)
  /-- A non-ok HTTP status. -/
  | httpErr (status : Nat)
  /-- A thrown network/parse error. -/
  | netErr (msg : String)
deriving Repr, DecidableEq

structure GeoState where
  memCache : List (String × GeoResult)
  dbCache : List (String × GeoResult)
deriving Repr, DecidableEq

/-- Association-list upsert (`Map.set` / `INSERT .. ON CONFLICT DO
UPDATE`). -/
def assocUpsert (k : String) (v : GeoResult) :
    List (String × GeoResult) → List (String × GeoResult)
  | [] => [(k, v)]
  | (k2, v2) :: rest =>
    if k2 = k then (k, v) :: rest else (k2, v2) :: assocUpsert k v rest

def assocFind (k : String) : List (String × GeoResult) → Option GeoResult
  | [] => none
  | (k2, v) :: rest => if k2 = k then some v else assocFind k rest

/-- JavaScript `replace(/\s+/g, " ")`: collapse whitespace runs to a
single space. -/
def collapseWsChars : Bool → List Char → List Char
  | _, [] => []
  | prevWs, c :: rest =>
    if c.isWhitespace then
      if prevWs then collapseWsChars true rest
      else ' ' :: collapseWsChars true rest
    else c :: collapseWsChars false rest

/-- `normalizeAddress`: `address.trim().toLowerCase().replace(/\s+/g, " ")`. -/
def normalizeAddress (address : String) : String :=
  String.mk (collapseWsChars false (asciiLower (jsTrim address)).data)

/-- `getCachedGeocode`: memory first, then the persistent table (a
database hit is promoted into the memory cache). -/
def getCachedGeocode (st : GeoState) (address : String) :
    Option GeoResult × GeoState :=
  let n := normalizeAddress address
  match assocFind n st.memCache with
  | some v => (some v, st)
  | none =>
    match assocFind n st.dbCache with
    | some v => (some v, { st with memCache := assocUpsert n v st.memCache })
    | none => (none, st)

/-- `setCachedGeocode`: write both the memory cache and the persistent
table. -/
def setCachedGeocode (st : GeoState) (address : String) (result : GeoResult) :
    GeoState :=
  let n := normalizeAddress address
  { memCache := assocUpsert n result st.memCache,
    dbCache := assocUpsert n result st.dbCache }

/-- `GeocodingService.geocode(address, retries)` over a scripted list
of upstream outcomes.  Returns the result, the caches afterwards, and
the unconsumed script suffix.  Only a 429 with retries remaining and a
thrown error with retries remaining recurse; every other terminal
outcome — including a non-ok status and an exhausted retry — is
written to both caches before returning. -/
def geocodeRun (address : String) :
    GeoState → List GeoOutcome → Nat → GeoResult × GeoState × List GeoOutcome
  | st, script, retries =>
    if (jsTrim address) = "" then
      ({ error := some "Empty address" }, st, script)
    else
      match getCachedGeocode st address with
      | (some cached, st2) => (cached, st2, script)
      | (none, st2) =>
        let outcome := script.headD (.netErr "fetch failed")
        let rest := script.tail
        match outcome with
        | .httpErr status =>
          (match retries with
          | r + 1 =>
            if status = 429 then geocodeRun address st2 rest r
            else
              (({ error := some ("HTTP " ++ toString status) } : GeoResult),
                setCachedGeocode st2 address
                  { error := some ("HTTP " ++ toString status) }, rest)
          | 0 =>
            (({ error := some ("HTTP " ++ toString status) } : GeoResult),
              setCachedGeocode st2 address
                { error := some ("HTTP " ++ toString status) }, rest))
        | .ok locs =>
          match locs with
          | [] =>
            (({ error := some "No results found" } : GeoResult),
              setCachedGeocode st2 address { error := some "No results found" },
              rest)
          | l :: _ =>
            (({ lat := some l.lat, lon := some l.lon,
                display_name := some l.display_name } : GeoResult),
              setCachedGeocode st2 address
                { lat := some l.lat, lon := some l.lon,
                  display_name := some l.display_name }, rest)
        | .netErr m =>
          match retries with
          | r + 1 => geocodeRun address st2 rest r
          | 0 =>
            (({ error := some m } : GeoResult),
              setCachedGeocode st2 address { error := some m }, rest)

/-! # Theorems -/

/-- Neither connector's `parseAddress` ever produces a house number:
the result shape only ever carries `street`, `city`, `state`, `zip`. -/
theorem parseAddressStr_house_number (a : String) :
    (parseAddressStr a).house_number = none := by
  simp only [parseAddressStr]
  split <;> rfl

theorem socrataParseAddress_house_number (a : Option String) :
    (socrataParseAddress a).house_number = none := by
  cases a with
  | none => rfl
  | some s =>
    show (if s = "" then ({} : ParsedAddress) else parseAddressStr s).house_number = none
    split
    · rfl
    · exact parseAddressStr_house_number s

theorem arcgisParseAddress_house_number (a : Option String) :
    (arcgisParseAddress a).house_number = none := by
  cases a with
  | none => rfl
  | some s =>
    show (if s = "" then ({} : ParsedAddress) else parseAddressStr s).house_number = none
    split
    · rfl
    · exact parseAddressStr_house_number s

/-- C6 — counterexample.  On the spec's own example the parser does
not split off the house number: the whole first component `"700 H
Street"` becomes `street` and `house_number` is absent, in both
connectors. -/
theorem claim6_counterexample :
    socrataParseAddress (some "700 H Street, Sacramento, CA 95814") ≠
      { house_number := some "700", street := some "H Street",
        city := some "Sacramento", state := some "CA",
        zip := some "95814" } ∧
    arcgisParseAddress (some "700 H Street, Sacramento, CA 95814") ≠
      { house_number := some "700", street := some "H Street",
        city := some "Sacramento", state := some "CA",
        zip := some "95814" } := by
  constructor <;> decide

/-- C6 — amended.  Both connectors split the raw address on commas and
trim; the entire first component (house number included) becomes
`street`, the second component (when non-empty) becomes `city`, and
the comma-joined remainder after the first component is scanned for
the first two-letter uppercase state abbreviation and the first
5-digit (optionally `-4`) ZIP; no house number is ever extracted.  The
spec's example accordingly parses with `street = "700 H Street"` and
no `house_number`. -/
theorem claim6_amended :
    (∀ a : Option String,
      (socrataParseAddress a).house_number = none ∧
      (arcgisParseAddress a).house_number = none ∧
      socrataParseAddress a = arcgisParseAddress a) ∧
    (∀ addr : String, ¬ addr = "" →
      2 ≤ ((splitComma addr).map jsTrim).length →
      socrataParseAddress (some addr) =
        { street := some (((splitComma addr).map jsTrim).getD 0 ""),
          city := jsOrUndef (((splitComma addr).map jsTrim).getD 1 ""),
          state := findStateMatch
            (joinSep ", " (((splitComma addr).map jsTrim).drop 1)),
          zip := findZipMatch
            (joinSep ", " (((splitComma addr).map jsTrim).drop 1)) }) ∧
    socrataParseAddress (some "700 H Street, Sacramento, CA 95814") =
      { street := some "700 H Street", city := some "Sacramento",
        state := some "CA", zip := some "95814" } ∧
    arcgisParseAddress (some "700 H Street, Sacramento, CA 95814") =
      { street := some "700 H Street", city := some "Sacramento",
        state := some "CA", zip := some "95814" } := by
  refine ⟨fun a => ⟨socrataParseAddress_house_number a,
    arcgisParseAddress_house_number a, ?_⟩, ?_, by decide, by decide⟩
  · cases a with
    | none => rfl
    | some s => rfl
  · intro addr hne hlen
    show (if addr = "" then ({} : ParsedAddress) else parseAddressStr addr) = _
    rw [if_neg hne]
    simp only [parseAddressStr]
    rw [if_pos hlen]

/-- C6 — witness for the amended theorem at the spec's example
address. -/
theorem claim6_witness :
    socrataParseAddress (some "700 H Street, Sacramento, CA 95814") =
      { street :=
          some (((splitComma "700 H Street, Sacramento, CA 95814").map
            jsTrim).getD 0 ""),
        city := jsOrUndef
          (((splitComma "700 H Street, Sacramento, CA 95814").map
            jsTrim).getD 1 ""),
        state := findStateMatch (joinSep ", "
          (((splitComma "700 H Street, Sacramento, CA 95814").map
            jsTrim).drop 1)),
        zip := findZipMatch (joinSep ", "
          (((splitComma "700 H Street, Sacramento, CA 95814").map
            jsTrim).drop 1)) } :=
  claim6_amended.2.1 "700 H Street, Sacramento, CA 95814"
    (by decide) (by decide)

/-- C1 — counterexample.  A feature-service row whose issue date
arrives as epoch milliseconds (the numeric form §4.3 documents) gets a
normalized `issue_date` of `"2024-10-04"`, but its fingerprint is
hashed over `String(issueDate) = "1728000000000"`, so the fingerprint
differs from the SHA-256 digest of the record's own normalized
component tuple. -/
theorem claim1_counterexample :
    (arcgisNormalize { IssueDate := some (.num 1728000000000) }).fingerprint ≠
      sha256hex (fingerprintPreimage
        (sliceTuple (arcgisNormalize { IssueDate := some (.num 1728000000000) }))) := by
  have h1 : (arcgisNormalize { IssueDate := some (.num 1728000000000) }).fingerprint =
      generateFingerprint { issueDate := some "1728000000000" } := by
    show generateFingerprint _ = _
    congr 1
  have h2 : fingerprintPreimage
      (sliceTuple (arcgisNormalize { IssueDate := some (.num 1728000000000) })) =
      "||||2024-10-04|" := by decide
  rw [h1, h2]
  show sha256hex (fingerprintPreimage { issueDate := some "1728000000000" }) ≠
    sha256hex "||||2024-10-04|"
  rw [show fingerprintPreimage
    ({ issueDate := some "1728000000000" } : FingerprintInput) =
    "||||1728000000000|" from by decide]
  decide

/-- C1 — amended.  The Socrata connector's fingerprint is exactly the
SHA-256 lowercase-hex digest of the `"|"`-joined case/trim-normalized
component tuple of the record it produces.  The ArcGIS connector hashes
the same tuple except that the issue-date component is the raw
attribute value coerced to a string (`String(issueDate)`) rather than
the record's normalized `YYYY-MM-DD` date — the two agree whenever the
portal delivers the date as a string.  Fingerprints are a pure function
of the case/trim-normalized component tuple that is hashed, so rows
normalizing to the same hashed tuple receive equal fingerprints. -/
theorem claim1_amended :
    (∀ r : SocrataRow, (socrataNormalize r).fingerprint =
        sha256hex (fingerprintPreimage (sliceTuple (socrataNormalize r)))) ∧
    (∀ a : ArcAttrs, (arcgisNormalize a).fingerprint =
        sha256hex (fingerprintPreimage
          { street := (arcgisParseAddress (arcgisAddressRaw a)).street,
            city := (arcgisParseAddress (arcgisAddressRaw a)).city,
            state := (arcgisParseAddress (arcgisAddressRaw a)).state,
            parcelId := arcgisParcelId a,
            issueDate := jsStringOfOpt (arcgisIssueDateRaw a),
            permitType := arcgisPermitType a })) ∧
    (∀ a : ArcAttrs, (∀ s, arcgisIssueDateRaw a ≠ some (.num s)) →
        (arcgisNormalize a).fingerprint =
          sha256hex (fingerprintPreimage (sliceTuple (arcgisNormalize a)))) ∧
    (∀ i1 i2 : FingerprintInput, fingerprintTuple i1 = fingerprintTuple i2 →
        generateFingerprint i1 = generateFingerprint i2) := by
  refine ⟨fun r => rfl, fun a => rfl, fun a hstr => ?_, fun i1 i2 h => ?_⟩
  · have hdate : jsStringOfOpt (arcgisIssueDateRaw a) =
        formatDateOpt (arcgisIssueDateRaw a) := by
      cases hd : arcgisIssueDateRaw a with
      | none => rfl
      | some v =>
        cases v with
        | str s => rfl
        | num n => exact absurd hd (hstr n)
    calc (arcgisNormalize a).fingerprint
        = sha256hex (fingerprintPreimage
            { street := (arcgisParseAddress (arcgisAddressRaw a)).street,
              city := (arcgisParseAddress (arcgisAddressRaw a)).city,
              state := (arcgisParseAddress (arcgisAddressRaw a)).state,
              parcelId := arcgisParcelId a,
              issueDate := jsStringOfOpt (arcgisIssueDateRaw a),
              permitType := arcgisPermitType a }) := rfl
      _ = sha256hex (fingerprintPreimage
            { street := (arcgisParseAddress (arcgisAddressRaw a)).street,
              city := (arcgisParseAddress (arcgisAddressRaw a)).city,
              state := (arcgisParseAddress (arcgisAddressRaw a)).state,
              parcelId := arcgisParcelId a,
              issueDate := formatDateOpt (arcgisIssueDateRaw a),
              permitType := arcgisPermitType a }) := by rw [hdate]
      _ = sha256hex (fingerprintPreimage (sliceTuple (arcgisNormalize a))) := rfl
  · unfold generateFingerprint fingerprintPreimage
    rw [h]

/-- C1 — witness: two fingerprint inputs differing only in case and
surrounding whitespace normalize to the same tuple and hash equal. -/
theorem claim1_witness :
    generateFingerprint
      { street := some "  700 H Street ", city := some "SACRAMENTO",
        state := some "ca", permitType := some "Re-Roof" } =
    generateFingerprint
      { street := some "700 h street", city := some "Sacramento",
        state := some "CA", permitType := some "RE-ROOF" } :=
  claim1_amended.2.2.2 _ _ (by decide)

/-- `applyInsert` keeps the primary key. -/
theorem applyInsert_id (p : InsertPermit) (r : PermitRow) :
    (applyInsert p r).id = r.id := rfl

/-- `applyInsert` keeps the insertion timestamp. -/
theorem applyInsert_ingest_ts (p : InsertPermit) (r : PermitRow) :
    (applyInsert p r).ingest_ts = r.ingest_ts := rfl

/-- The fingerprint-match update rewrites exactly the found row when
primary keys are unique, so the lookup afterwards returns the found row
with all insertable columns replaced. -/
theorem find_update (p : InsertPermit) :
    ∀ (l : List PermitRow) (e : PermitRow),
    (l.map (fun r => r.id)).Nodup →
    l.find? (fun r => r.fingerprint = p.fingerprint) = some e →
    (l.map fun r => if r.id = e.id then applyInsert p r else r).find?
        (fun r => r.fingerprint = p.fingerprint) = some (applyInsert p e)
  | [], e, _, hfind => by simp [List.find?] at hfind
  | r :: t, e, hnd, hfind => by
    by_cases hr : r.fingerprint = p.fingerprint
    · have her : e = r := by
        rw [List.find?_cons] at hfind
        simp [hr] at hfind
        exact hfind.symm
      subst her
      have : (applyInsert p e).fingerprint = p.fingerprint := rfl
      simp [List.map_cons, List.find?_cons, this]
    · have hfind2 : t.find? (fun r => r.fingerprint = p.fingerprint) = some e := by
        rw [List.find?_cons] at hfind
        simpa [hr] using hfind
      have hmem : e ∈ t := List.mem_of_find?_eq_some hfind2
      have hnd2 : (t.map (fun r => r.id)).Nodup := (List.nodup_cons.mp hnd).2
      have hne : ¬ r.id = e.id := by
        intro hid
        have hin : e.id ∈ t.map (fun r => r.id) :=
          List.mem_map_of_mem (fun r => r.id) hmem
        rw [← hid] at hin
        exact (List.nodup_cons.mp hnd).1 hin
      rw [List.map_cons, if_neg hne, List.find?_cons]
      simp only [hr]
      exact find_update p t e hnd2 hfind2

/-- Update path of `upsertPermit`: the row found by fingerprint is
rewritten in place. -/
theorem upsertPermit_lookup_update (s : PermitStore) (p : InsertPermit)
    (e : PermitRow) (hnd : (s.rows.map (fun r => r.id)).Nodup)
    (he : getPermitByFingerprint s p.fingerprint = some e) :
    getPermitByFingerprint (upsertPermit s p) p.fingerprint =
      some (applyInsert p e) := by
  unfold upsertPermit
  rw [he]
  exact find_update p s.rows e hnd he

/-- Insert path of `upsertPermit`. -/
theorem upsertPermit_insert (s : PermitStore) (p : InsertPermit)
    (he : getPermitByFingerprint s p.fingerprint = none) :
    upsertPermit s p =
      { s with
        rows := s.rows ++ [{ toInsertPermit := p, id := s.nextId, ingest_ts := s.now }],
        nextId := s.nextId + 1 } := by
  unfold upsertPermit
  rw [he]

/-- C2 — counterexample.  A stored permit with `permit_type = "Re-Roof"`
upserted with a record that carries `permit_type = null` (and the same
fingerprint) ends up with `permit_type = null`: a null field in the
argument does NOT leave the stored value unchanged, because
`db.update(permits).set(permit)` writes every column the insert object
carries, nulls included. -/
theorem claim2_counterexample :
    getPermitByFingerprint
      (upsertPermit
        { rows := [{ source_id := 1, fingerprint := "fp",
                     permit_type := some "Re-Roof", id := 1, ingest_ts := 0 }],
          nextId := 2, now := 7 }
        { source_id := 1, fingerprint := "fp", permit_type := none })
      "fp" =
      some { source_id := 1, fingerprint := "fp", permit_type := none,
             id := 1, ingest_ts := 0 } ∧
    getPermitByFingerprint
      { rows := [{ source_id := 1, fingerprint := "fp",
                   permit_type := some "Re-Roof", id := 1, ingest_ts := 0 }],
        nextId := 2, now := 7 }
      "fp" =
      some { source_id := 1, fingerprint := "fp",
             permit_type := some "Re-Roof", id := 1, ingest_ts := 0 } := by
  constructor <;> decide

/-- C2 — amended.  `upsert_permit` looks up an existing permit by the
argument's fingerprint; if one exists, every insertable column
(including the null ones) overwrites the stored values while the
primary key `id` and the insertion timestamp `ingest_ts` are preserved;
if none exists, the permit is inserted as a new row. -/
theorem claim2_amended (s : PermitStore) (p : InsertPermit)
    (hnd : (s.rows.map (fun r => r.id)).Nodup) :
    (∀ e, getPermitByFingerprint s p.fingerprint = some e →
      getPermitByFingerprint (upsertPermit s p) p.fingerprint =
        some { toInsertPermit := p, id := e.id, ingest_ts := e.ingest_ts } ∧
      (upsertPermit s p).rows.length = s.rows.length) ∧
    (getPermitByFingerprint s p.fingerprint = none →
      (upsertPermit s p).rows =
        s.rows ++ [{ toInsertPermit := p, id := s.nextId, ingest_ts := s.now }]) := by
  constructor
  · intro e he
    refine ⟨upsertPermit_lookup_update s p e hnd he, ?_⟩
    unfold upsertPermit
    rw [he]
    exact List.length_map _ _
  · intro he
    rw [upsertPermit_insert s p he]

/-- C2 — witness at a concrete one-row store. -/
theorem claim2_witness :
    getPermitByFingerprint
      (upsertPermit
        { rows := [{ source_id := 1, fingerprint := "fp",
                     permit_type := some "Re-Roof", id := 4, ingest_ts := 9 }],
          nextId := 5, now := 11 }
        { source_id := 1, fingerprint := "fp", permit_type := none })
      "fp" =
      some { toInsertPermit :=
               { source_id := 1, fingerprint := "fp", permit_type := none },
             id := 4, ingest_ts := 9 } :=
  ((claim2_amended
    { rows := [{ source_id := 1, fingerprint := "fp",
                 permit_type := some "Re-Roof", id := 4, ingest_ts := 9 }],
      nextId := 5, now := 11 }
    { source_id := 1, fingerprint := "fp", permit_type := none }
    (by decide)).1
    { source_id := 1, fingerprint := "fp", permit_type := some "Re-Roof",
      id := 4, ingest_ts := 9 }
    (by decide)).1

/-- C10 — the permit's opaque `id` and its `ingest_ts` are stable
across an update by fingerprint: the insert schema carries neither
column (`insertPermitSchema` omits them), so the `.set(permit)` update
leaves both untouched. -/
theorem claim10_frame :
    (∀ (p : InsertPermit) (r : PermitRow),
      (applyInsert p r).id = r.id ∧ (applyInsert p r).ingest_ts = r.ingest_ts) ∧
    (∀ (s : PermitStore) (p : InsertPermit) (e : PermitRow),
      (s.rows.map (fun r => r.id)).Nodup →
      getPermitByFingerprint s p.fingerprint = some e →
      ∃ r2, getPermitByFingerprint (upsertPermit s p) p.fingerprint = some r2 ∧
        r2.id = e.id ∧ r2.ingest_ts = e.ingest_ts) := by
  refine ⟨fun p r => ⟨rfl, rfl⟩, fun s p e hnd he => ?_⟩
  exact ⟨applyInsert p e, upsertPermit_lookup_update s p e hnd he, rfl, rfl⟩

/-- C10 — witness at a concrete one-row store. -/
theorem claim10_witness :
    ∃ r2, getPermitByFingerprint
      (upsertPermit
        { rows := [{ source_id := 2, fingerprint := "g",
                     owner_name := some "A", id := 17, ingest_ts := 3 }],
          nextId := 18, now := 44 }
        { source_id := 2, fingerprint := "g", owner_name := none })
      "g" = some r2 ∧ r2.id = 17 ∧ r2.ingest_ts = 3 :=
  claim10_frame.2
    { rows := [{ source_id := 2, fingerprint := "g",
                 owner_name := some "A", id := 17, ingest_ts := 3 }],
      nextId := 18, now := 44 }
    { source_id := 2, fingerprint := "g", owner_name := none }
    { source_id := 2, fingerprint := "g", owner_name := some "A",
      id := 17, ingest_ts := 3 }
    (by decide) (by decide)

/-- Update path of `upsertPermit`, row-list form. -/
theorem upsertPermit_rows_update (s : PermitStore) (p : InsertPermit)
    (x : PermitRow) (h : getPermitByFingerprint s p.fingerprint = some x) :
    (upsertPermit s p).rows =
      s.rows.map (fun r => if r.id = x.id then applyInsert p r else r) := by
  unfold upsertPermit
  rw [h]

theorem find_append_singleton_of_none {l : List PermitRow}
    {q : PermitRow → Bool} (h : l.find? q = none) (x : PermitRow)
    (hx : q x = true) : (l ++ [x]).find? q = some x := by
  rw [List.find?_append, h, List.find?_cons, hx]
  rfl

/-- The second identical upsert leaves the row list unchanged. -/
theorem upsertPermit_idem_rows (s : PermitStore) (p : InsertPermit)
    (hwf : StoreWF s) :
    (upsertPermit (upsertPermit s p) p).rows = (upsertPermit s p).rows := by
  cases h : getPermitByFingerprint s p.fingerprint with
  | some e =>
    have h1 : getPermitByFingerprint (upsertPermit s p) p.fingerprint =
        some (applyInsert p e) := upsertPermit_lookup_update s p e hwf.2 h
    rw [upsertPermit_rows_update _ p _ h1, upsertPermit_rows_update s p e h,
      List.map_map]
    apply List.map_congr_left
    intro r _
    by_cases hr : r.id = e.id
    · simp [Function.comp, applyInsert, hr]
    · simp [Function.comp, applyInsert, hr]
  | none =>
    have h1 : (upsertPermit s p).rows =
        s.rows ++ [{ toInsertPermit := p, id := s.nextId, ingest_ts := s.now }] := by
      rw [upsertPermit_insert s p h]
    have hnofind : s.rows.find? (fun r => r.fingerprint = p.fingerprint) = none := h
    have h2 : getPermitByFingerprint (upsertPermit s p) p.fingerprint =
        some { toInsertPermit := p, id := s.nextId, ingest_ts := s.now } := by
      show (upsertPermit s p).rows.find? (fun r => r.fingerprint = p.fingerprint) = _
      rw [h1]
      exact find_append_singleton_of_none hnofind _ (decide_eq_true rfl)
    rw [upsertPermit_rows_update _ p _ h2, h1, List.map_append]
    dsimp only
    have ha : (s.rows.map fun r =>
        if r.id = s.nextId then applyInsert p r else r) = s.rows := by
      have hcongr := List.map_congr_left
        (f := fun r : PermitRow => if r.id = s.nextId then applyInsert p r else r)
        (g := fun r : PermitRow => r)
        (l := s.rows)
        (fun r hmem => by
          show (if r.id = s.nextId then applyInsert p r else r) = r
          rw [if_neg (Nat.ne_of_lt (hwf.1 r hmem))])
      rw [hcongr]
      exact List.map_id' s.rows
    rw [ha]
    congr 1
    rw [List.map_cons, List.map_nil, if_pos rfl]
    rfl

/-- C9 — upsert is idempotent: a second identical `upsert_permit`
yields the same `get_permit_by_fingerprint` result and does not change
`get_permit_stats().total`. -/
theorem claim9_idempotent (s : PermitStore) (p : InsertPermit)
    (hwf : StoreWF s) :
    getPermitByFingerprint (upsertPermit (upsertPermit s p) p) p.fingerprint =
      getPermitByFingerprint (upsertPermit s p) p.fingerprint ∧
    (getPermitStats (upsertPermit (upsertPermit s p) p)).total =
      (getPermitStats (upsertPermit s p)).total := by
  have hrows := upsertPermit_idem_rows s p hwf
  constructor
  · show (upsertPermit (upsertPermit s p) p).rows.find? _ =
      (upsertPermit s p).rows.find? _
    rw [hrows]
  · show (upsertPermit (upsertPermit s p) p).rows.length =
      (upsertPermit s p).rows.length
    rw [hrows]

/-- C9 — witness: double upsert into the empty store. -/
theorem claim9_witness :
    getPermitByFingerprint
      (upsertPermit (upsertPermit { rows := [], nextId := 0, now := 0 }
        { source_id := 3, fingerprint := "h" })
        { source_id := 3, fingerprint := "h" }) "h" =
      getPermitByFingerprint
        (upsertPermit { rows := [], nextId := 0, now := 0 }
          { source_id := 3, fingerprint := "h" }) "h" ∧
    (getPermitStats
      (upsertPermit (upsertPermit { rows := [], nextId := 0, now := 0 }
        { source_id := 3, fingerprint := "h" })
        { source_id := 3, fingerprint := "h" })).total =
      (getPermitStats
        (upsertPermit { rows := [], nextId := 0, now := 0 }
          { source_id := 3, fingerprint := "h" })).total :=
  claim9_idempotent { rows := [], nextId := 0, now := 0 }
    { source_id := 3, fingerprint := "h" } (by decide)

/-- C3 — the ArcGIS starting cursor is the maximum of the state-table
cursor and the database's maximum integer-cast `source_record_id`
(absent values counting as `0`); a positive cursor produces
`OBJECTID > {cursor}` in both modes, and with no OBJECTID cursor the
incremental mode falls back to a `lastEditDate` timestamp clause when a
timestamp cursor exists. -/
theorem claim3_cursor (state : ConnectorStateM) (store : PermitStore)
    (sid : Nat) :
    startingObjectId state (getMaxSourceRecordId store sid) =
      max (state.last_max_objectid.getD 0)
        ((getMaxSourceRecordId store sid).getD 0) ∧
    (0 < startingObjectId state (getMaxSourceRecordId store sid) →
      arcgisBackfillWhere state (getMaxSourceRecordId store sid) =
        some ("OBJECTID > " ++
          toString (startingObjectId state (getMaxSourceRecordId store sid))) ∧
      arcgisIncrementalWhere state (getMaxSourceRecordId store sid) =
        some ("OBJECTID > " ++
          toString (startingObjectId state (getMaxSourceRecordId store sid)))) ∧
    (startingObjectId state (getMaxSourceRecordId store sid) = 0 →
      arcgisBackfillWhere state (getMaxSourceRecordId store sid) = none ∧
      arcgisIncrementalWhere state (getMaxSourceRecordId store sid) =
        (if jsTruthyStr state.last_max_timestamp then
          some ("lastEditDate > timestamp \x27" ++
            state.last_max_timestamp.getD "" ++ "\x27")
        else none)) := by
  refine ⟨rfl, fun hpos => ⟨?_, ?_⟩, fun hz => ⟨?_, ?_⟩⟩
  · unfold arcgisBackfillWhere
    rw [if_pos hpos]
  · unfold arcgisIncrementalWhere
    rw [if_pos hpos]
  · unfold arcgisBackfillWhere
    rw [if_neg (by omega)]
  · unfold arcgisIncrementalWhere
    rw [if_neg (by omega)]

/-- C3 — witness: a state cursor of 3547 against a stored record id
"6621" resumes from the database maximum (the `replit.md` scenario). -/
theorem claim3_witness :
    0 < startingObjectId ⟨none, some 3547, none⟩
      (getMaxSourceRecordId
        { rows := [{ source_id := 7, source_record_id := "6621",
                     fingerprint := "f", id := 1, ingest_ts := 0 }],
          nextId := 2, now := 0 } 7) ∧
    startingObjectId ⟨none, some 3547, none⟩
      (getMaxSourceRecordId
        { rows := [{ source_id := 7, source_record_id := "6621",
                     fingerprint := "f", id := 1, ingest_ts := 0 }],
          nextId := 2, now := 0 } 7) = 6621 ∧
    arcgisBackfillWhere ⟨none, some 3547, none⟩
      (getMaxSourceRecordId
        { rows := [{ source_id := 7, source_record_id := "6621",
                     fingerprint := "f", id := 1, ingest_ts := 0 }],
          nextId := 2, now := 0 } 7) =
      some ("OBJECTID > " ++
        toString (startingObjectId ⟨none, some 3547, none⟩
          (getMaxSourceRecordId
            { rows := [{ source_id := 7, source_record_id := "6621",
                         fingerprint := "f", id := 1, ingest_ts := 0 }],
              nextId := 2, now := 0 } 7))) :=
  ⟨by decide, by decide,
    ((claim3_cursor ⟨none, some 3547, none⟩
      { rows := [{ source_id := 7, source_record_id := "6621",
                   fingerprint := "f", id := 1, ingest_ts := 0 }],
        nextId := 2, now := 0 } 7).2.1 (by decide)).1⟩

/-- Every provenance-carried value is at least the starting cursor. -/
theorem arcgisProvenanceIds_ge : ∀ (cur : Nat) (l : List (Option Nat)),
    ∀ v ∈ arcgisProvenanceIds cur l, cur ≤ v
  | _, [] => by simp [arcgisProvenanceIds]
  | cur, o :: rest => by
    intro v hv
    have hstep : cur ≤ provStep cur o := by
      cases o with
      | none => exact Nat.le_refl cur
      | some n =>
        show cur ≤ if n ≠ 0 ∧ cur < n then n else cur
        split
        · next hc => exact Nat.le_of_lt hc.2
        · exact Nat.le_refl cur
    rw [arcgisProvenanceIds] at hv
    rcases List.mem_cons.mp hv with h | h
    · exact h ▸ hstep
    · exact Nat.le_trans hstep (arcgisProvenanceIds_ge (provStep cur o) rest v h)

/-- The orchestrator's tracking fold either keeps its accumulator or
lands on a non-zero element of the list. -/
theorem trackFold_cases : ∀ (vals : List Nat) (acc : Option Nat),
    vals.foldl trackStep acc = acc ∨
      ∃ v, v ∈ vals ∧ vals.foldl trackStep acc = some v ∧ v ≠ 0
  | [], _ => Or.inl rfl
  | v :: t, acc => by
    rw [List.foldl_cons]
    rcases trackFold_cases t (trackStep acc v) with h | ⟨w, hw, hfold, hw0⟩
    · rw [h]
      unfold trackStep
      split
      · next hc => exact Or.inr ⟨v, List.mem_cons_self v t, rfl, hc.1⟩
      · exact Or.inl rfl
    · exact Or.inr ⟨w, List.mem_cons_of_mem v hw, hfold, hw0⟩

/-- C4 — cursor monotonicity: after a successful run the stored
`last_max_objectid` is at least its previous value, whatever subset of
the stream's provenance values the orchestrator saw (per-record upsert
failures skip the tracking, hence the sublist). -/
theorem claim4_monotone (state : ConnectorStateM) (dbMax : Option Nat)
    (objectIds : List (Option Nat)) (provSeen : List Nat)
    (hsub : provSeen.Sublist
      (arcgisProvenanceIds (startingObjectId state dbMax) objectIds)) :
    state.last_max_objectid.getD 0 ≤
      (finalLastMaxObjectid state (trackMaxObjectId provSeen)).getD 0 := by
  rcases trackFold_cases provSeen none with h | ⟨v, hv, hfold, hv0⟩
  · unfold trackMaxObjectId
    rw [h]
    unfold finalLastMaxObjectid
    rw [if_pos (show jsFalsyNum none from rfl)]
    split
    · next hz =>
      unfold jsFalsyNum at hz
      omega
    · exact Nat.le_refl _
  · have hmem : v ∈ arcgisProvenanceIds (startingObjectId state dbMax) objectIds :=
      hsub.subset hv
    have hge : startingObjectId state dbMax ≤ v :=
      arcgisProvenanceIds_ge _ _ v hmem
    have hold : state.last_max_objectid.getD 0 ≤ startingObjectId state dbMax :=
      Nat.le_max_left _ _
    unfold trackMaxObjectId
    rw [hfold]
    unfold finalLastMaxObjectid
    rw [if_neg (show ¬ jsFalsyNum (some v) from hv0)]
    exact Nat.le_trans hold hge

/-- C4 — witness: a run over OBJECTIDs `[7, absent, 2]` starting from
state cursor 5 and database maximum 3 ends at least at 5. -/
theorem claim4_witness :
    (ConnectorStateM.last_max_objectid ⟨none, some 5, none⟩).getD 0 ≤
      (finalLastMaxObjectid ⟨none, some 5, none⟩
        (trackMaxObjectId
          (arcgisProvenanceIds
            (startingObjectId ⟨none, some 5, none⟩ (some 3))
            [some 7, none, some 2]))).getD 0 :=
  claim4_monotone ⟨none, some 5, none⟩ (some 3) [some 7, none, some 2]
    (arcgisProvenanceIds (startingObjectId ⟨none, some 5, none⟩ (some 3))
      [some 7, none, some 2])
    (List.Sublist.refl _)

/-- Appending one batch to the history bumps or resets the trailing
zero-save count. -/
theorem trailingZeroSaves_append (maxRows : Nat) (hist : List BatchResult)
    (b : BatchResult) :
    trailingZeroSaves maxRows (hist ++ [b]) =
      if zeroSaveBatch maxRows b then trailingZeroSaves maxRows hist + 1
      else 0 := by
  unfold trailingZeroSaves
  rw [List.reverse_append]
  simp only [List.reverse_cons, List.reverse_nil, List.nil_append,
    List.singleton_append, List.takeWhile_cons]
  cases h : zeroSaveBatch maxRows b <;> simp [h]

/-- The loop's counter equals the trailing zero-save count of the
batches processed so far. -/
theorem counterStep_trailing (maxRows : Nat) (hist : List BatchResult)
    (b : BatchResult) :
    sweepCounterStep maxRows (trailingZeroSaves maxRows hist) b =
      trailingZeroSaves maxRows (hist ++ [b]) := by
  rw [trailingZeroSaves_append]
  unfold sweepCounterStep
  cases h : zeroSaveBatch maxRows b <;> simp [h]

/-- Re-indexing of the stopping condition under one processed batch. -/
theorem stopAfterH_shift (maxRows : Nat) (hist : List BatchResult)
    (b : BatchResult) (t : List BatchResult) (j : Nat) :
    stopAfterH maxRows (hist ++ [b]) t j ↔
      stopAfterH maxRows hist (b :: t) (j + 1) := by
  unfold stopAfterH
  rw [show (b :: t).take (j + 1 + 1) = b :: t.take (j + 1) from rfl,
    show (b :: t).getD (j + 1) ⟨0, 0⟩ = t.getD j ⟨0, 0⟩ from rfl,
    show hist ++ b :: t.take (j + 1) = (hist ++ [b]) ++ t.take (j + 1) from by
      rw [List.append_assoc, List.singleton_append]]

/-- The stopping condition at the first batch. -/
theorem stopAfterH_zero (maxRows : Nat) (hist : List BatchResult)
    (b : BatchResult) (t : List BatchResult) :
    stopAfterH maxRows hist (b :: t) 0 ↔
      (b.rowsFetched < maxRows ∨
        3 ≤ sweepCounterStep maxRows (trailingZeroSaves maxRows hist) b) := by
  unfold stopAfterH
  rw [counterStep_trailing,
    show (b :: t).take 1 = [b] from rfl,
    show (b :: t).getD 0 ⟨0, 0⟩ = b from rfl]

/-- The inner loop stops after batch `k` exactly when `k` is the first
index satisfying the tri-state exhaustion condition. -/
theorem runInner_spec (maxRows : Nat) : ∀ (bs hist : List BatchResult) (k : Nat),
    runInnerLoop maxRows (trailingZeroSaves maxRows hist) bs = some k ↔
      (k < bs.length ∧ stopAfterH maxRows hist bs k ∧
        ∀ j, j < k → ¬ stopAfterH maxRows hist bs j)
  | [], hist, k => by simp [runInnerLoop]
  | b :: t, hist, k => by
    simp only [runInnerLoop]
    by_cases h3 : 3 ≤ sweepCounterStep maxRows (trailingZeroSaves maxRows hist) b
    · rw [if_pos h3]
      have hstop : stopAfterH maxRows hist (b :: t) 0 :=
        (stopAfterH_zero maxRows hist b t).mpr (Or.inr h3)
      constructor
      · intro h
        have hk : 0 = k := Option.some.inj h
        subst hk
        exact ⟨Nat.succ_pos _, hstop, fun j hj => absurd hj (Nat.not_lt_zero j)⟩
      · rintro ⟨hk, hs, hmin⟩
        cases k with
        | zero => rfl
        | succ k2 => exact absurd hstop (hmin 0 (Nat.succ_pos k2))
    · by_cases hrf : b.rowsFetched < maxRows
      · rw [if_neg h3, if_pos hrf]
        have hstop : stopAfterH maxRows hist (b :: t) 0 :=
          (stopAfterH_zero maxRows hist b t).mpr (Or.inl hrf)
        constructor
        · intro h
          have hk : 0 = k := Option.some.inj h
          subst hk
          exact ⟨Nat.succ_pos _, hstop, fun j hj => absurd hj (Nat.not_lt_zero j)⟩
        · rintro ⟨hk, hs, hmin⟩
          cases k with
          | zero => rfl
          | succ k2 => exact absurd hstop (hmin 0 (Nat.succ_pos k2))
      · rw [if_neg h3, if_neg hrf]
        have hnostop0 : ¬ stopAfterH maxRows hist (b :: t) 0 := by
          intro hs
          rcases (stopAfterH_zero maxRows hist b t).mp hs with h | h
          · exact hrf h
          · exact h3 h
        rw [counterStep_trailing maxRows hist b]
        constructor
        · intro h
          obtain ⟨k2, hk2, hplus⟩ := Option.map_eq_some'.mp h
          obtain ⟨hlen, hs, hmin⟩ :=
            (runInner_spec maxRows t (hist ++ [b]) k2).mp hk2
          subst hplus
          refine ⟨Nat.succ_lt_succ hlen,
            (stopAfterH_shift maxRows hist b t k2).mp hs, ?_⟩
          intro j hj
          cases j with
          | zero => exact hnostop0
          | succ j2 =>
            intro hsj
            exact hmin j2 (by omega)
              ((stopAfterH_shift maxRows hist b t j2).mpr hsj)
        · rintro ⟨hlen, hs, hmin⟩
          cases k with
          | zero => exact absurd hs hnostop0
          | succ k2 =>
            have hk2 : runInnerLoop maxRows
                (trailingZeroSaves maxRows (hist ++ [b])) t = some k2 :=
              (runInner_spec maxRows t (hist ++ [b]) k2).mpr
                ⟨Nat.lt_of_succ_lt_succ hlen,
                 (stopAfterH_shift maxRows hist b t k2).mpr hs,
                 fun j hj hsj => hmin (j + 1) (by omega)
                   ((stopAfterH_shift maxRows hist b t j).mp hsj)⟩
            rw [hk2]
            rfl

/-- C5 — exhaustion rule of the continuous sweep's inner loop: the loop
leaves a source after the first batch whose page was short
(`rows_fetched < max_rows`) or that completes a third consecutive
zero-save full batch; a batch that saves at least one permit resets the
consecutive-zero-save counter, and otherwise the loop runs another
batch for the same source. -/
theorem claim5_exhaustion (maxRows : Nat) (bs : List BatchResult) (k : Nat) :
    (runInnerLoop maxRows 0 bs = some k ↔
      (k < bs.length ∧ stopAfter maxRows bs k ∧
        ∀ j, j < k → ¬ stopAfter maxRows bs j)) ∧
    (∀ (c : Nat) (b : BatchResult), 0 < b.permitsAdded →
      sweepCounterStep maxRows c b = 0) := by
  constructor
  · exact runInner_spec maxRows bs [] k
  · intro c b hb
    have hne : ¬ b.permitsAdded = 0 := by omega
    simp [sweepCounterStep, zeroSaveBatch, hne]

/-- C5 — witness: with `max_rows = 10`, a productive full batch
followed by three zero-save full batches stops exactly after the
fourth batch (index 3). -/
theorem claim5_witness :
    runInnerLoop 10 0 [⟨5, 10⟩, ⟨0, 10⟩, ⟨0, 10⟩, ⟨0, 10⟩] = some 3 :=
  ((claim5_exhaustion 10 [⟨5, 10⟩, ⟨0, 10⟩, ⟨0, 10⟩, ⟨0, 10⟩] 3).1).mpr
    ⟨by decide, by decide, by decide⟩

/-- Unfolding lemma for the backoff loop: a successful attempt returns
at once. -/
theorem backoffGo_ok {α : Type} (attempts : Nat → Except String α)
    (attempt remaining : Nat) (v : α) (h : attempts attempt = .ok v) :
    backoffGo attempts attempt remaining = (.ok v, attempt + 1) := by
  conv_lhs => rw [backoffGo]
  rw [h]

/-- Unfolding lemma for the backoff loop: a failed attempt retries
while retries remain. -/
theorem backoffGo_error_step {α : Type} (attempts : Nat → Except String α)
    (attempt r : Nat) (e : String) (h : attempts attempt = .error e) :
    backoffGo attempts attempt (r + 1) = backoffGo attempts (attempt + 1) r := by
  conv_lhs => rw [backoffGo]
  rw [h]

theorem backoffGo_error_last {α : Type} (attempts : Nat → Except String α)
    (attempt : Nat) (e : String) (h : attempts attempt = .error e) :
    backoffGo attempts attempt 0 = (.error e, attempt + 1) := by
  conv_lhs => rw [backoffGo]
  rw [h]

/-- The backoff loop returns the first successful attempt, no matter
what kind of error the earlier attempts raised. -/
theorem backoffGo_firstOk {α : Type} (attempts : Nat → Except String α) :
    ∀ (k attempt remaining : Nat), k ≤ remaining →
    (∀ j, j < k → ∃ e, attempts (attempt + j) = .error e) →
    (∃ v, attempts (attempt + k) = .ok v) →
    backoffGo attempts attempt remaining = (attempts (attempt + k), attempt + k + 1)
  | 0, attempt, remaining, _, _, hok => by
    obtain ⟨v, hv⟩ := hok
    have h0 : attempts attempt = .ok v := by simpa using hv
    rw [backoffGo_ok attempts attempt remaining v h0]
    simp [h0]
  | k + 1, attempt, remaining, hk, herr, hok => by
    obtain ⟨e, he⟩ := herr 0 (Nat.succ_pos k)
    obtain ⟨r, rfl⟩ : ∃ r, remaining = r + 1 := by
      cases remaining with
      | zero => omega
      | succ r => exact ⟨r, rfl⟩
    rw [backoffGo_error_step attempts attempt r e (by simpa using he)]
    have step := backoffGo_firstOk attempts k (attempt + 1) r (by omega)
      (fun j hj => by
        obtain ⟨e2, he2⟩ := herr (j + 1) (by omega)
        exact ⟨e2, by rw [show attempt + 1 + j = attempt + (j + 1) by omega]; exact he2⟩)
      (by
        obtain ⟨v, hv⟩ := hok
        exact ⟨v, by rw [show attempt + 1 + k = attempt + (k + 1) by omega]; exact hv⟩)
    rw [step, show attempt + 1 + k = attempt + (k + 1) by omega]

/-- When every attempt fails, the loop makes `remaining + 1` attempts
and surfaces the last error. -/
theorem backoffGo_allErr {α : Type} (attempts : Nat → Except String α) :
    ∀ (remaining attempt : Nat),
    (∀ j, j ≤ remaining → ∃ e, attempts (attempt + j) = .error e) →
    backoffGo attempts attempt remaining =
      (attempts (attempt + remaining), attempt + remaining + 1)
  | 0, attempt, herr => by
    obtain ⟨e, he⟩ := herr 0 (Nat.le_refl 0)
    simp only [Nat.add_zero] at he ⊢
    rw [backoffGo_error_last attempts attempt e he, he]
  | r + 1, attempt, herr => by
    obtain ⟨e, he⟩ := herr 0 (Nat.zero_le _)
    rw [backoffGo_error_step attempts attempt r e (by simpa using he)]
    have step := backoffGo_allErr attempts r (attempt + 1) (fun j hj => by
      obtain ⟨e2, he2⟩ := herr (j + 1) (by omega)
      exact ⟨e2, by rw [show attempt + 1 + j = attempt + (j + 1) by omega]; exact he2⟩)
    rw [step, show attempt + 1 + r = attempt + (r + 1) by omega]

/-- C7 — counterexample.  A 404 response (a 4xx other than 429) is not
immediately fatal: `fetchSocrata` throws on it like on any non-ok
status and `exponentialBackoff` retries, so a 404 followed by a 200
yields a success after two attempts — under the claim there would have
been exactly one attempt and a failure. -/
theorem claim7_counterexample :
    exponentialBackoff
      (fun n => fetchSocrata
        (if n = 0 then AttemptResult.resp 404 "err"
         else AttemptResult.resp 200 "rows")) 3 =
      (Except.ok "rows", 2) ∧ (2 : Nat) ≠ 1 := by
  exact ⟨rfl, by decide⟩

/-- C7 — amended.  `exponentialBackoff` makes up to `max_retries + 1`
attempts and retries after every thrown failure alike — network errors
and any non-ok HTTP status, since the connectors' fetch helpers throw
on every non-ok response (`fetchSocrata`/`fetchArcGIS`), with no
special-casing of 4xx versus 5xx or 429.  It returns the first
success, or the last error once all attempts fail. -/
theorem claim7_amended {α : Type} (attempts : Nat → Except String α)
    (maxRetries k : Nat) :
    (k ≤ maxRetries →
      (∀ j, j < k → ∃ e, attempts j = .error e) →
      (∃ v, attempts k = .ok v) →
      exponentialBackoff attempts maxRetries = (attempts k, k + 1)) ∧
    ((∀ j, j ≤ maxRetries → ∃ e, attempts j = .error e) →
      exponentialBackoff attempts maxRetries =
        (attempts maxRetries, maxRetries + 1)) ∧
    (∀ (st : Nat) (b : α), ¬ responseOk st →
      fetchSocrata (AttemptResult.resp st b) =
        .error ("Socrata API error: " ++ toString st) ∧
      fetchArcGIS (AttemptResult.resp st b) =
        .error ("ArcGIS API error: " ++ toString st)) := by
  refine ⟨fun hk herr hok => ?_, fun herr => ?_, fun st b hst => ?_⟩
  · simpa using backoffGo_firstOk attempts k 0 maxRetries hk
      (by simpa using herr) (by simpa using hok)
  · simpa using backoffGo_allErr attempts maxRetries 0 (by simpa using herr)
  · constructor <;> simp [fetchSocrata, fetchArcGIS, hst]

/-- C7 — witness: a 500 then a 200 retries once and succeeds; three
exhausted attempts surface the final error. -/
theorem claim7_witness :
    exponentialBackoff
      (fun n => fetchSocrata
        (if n = 0 then AttemptResult.resp 500 "e" else AttemptResult.resp 200 "rows")) 2 =
      (fetchSocrata (AttemptResult.resp 200 "rows"), 2) := by
  have h := (claim7_amended
    (fun n => fetchSocrata
      (if n = 0 then AttemptResult.resp 500 "e" else AttemptResult.resp 200 "rows"))
    2 1).1 (by decide) (fun j hj => by interval_cases j; exact ⟨_, rfl⟩)
    ⟨"rows", rfl⟩
  simpa using h

theorem assocFind_upsert (k : String) (v : GeoResult) :
    ∀ l, assocFind k (assocUpsert k v l) = some v
  | [] => by simp [assocUpsert, assocFind]
  | (k2, v2) :: rest => by
    unfold assocUpsert
    by_cases hk : k2 = k
    · rw [if_pos hk]
      simp [assocFind]
    · rw [if_neg hk]
      unfold assocFind
      rw [if_neg hk]
      exact assocFind_upsert k v rest

/-- A cache miss leaves both caches untouched. -/
theorem getCachedGeocode_miss (st : GeoState) (addr : String)
    (h : (getCachedGeocode st addr).1 = none) :
    getCachedGeocode st addr = (none, st) := by
  unfold getCachedGeocode at h ⊢
  dsimp only at h ⊢
  cases hm : assocFind (normalizeAddress addr) st.memCache with
  | some v =>
    rw [hm] at h
    exact Option.noConfusion h
  | none =>
    rw [hm] at h
    cases hd : assocFind (normalizeAddress addr) st.dbCache with
    | some v =>
      rw [hd] at h
      exact Option.noConfusion h
    | none => rfl

/-- A freshly written cache entry is immediately visible to lookups. -/
theorem getCachedGeocode_after_set (st : GeoState) (addr : String)
    (v : GeoResult) :
    (getCachedGeocode (setCachedGeocode st addr v) addr).1 = some v := by
  unfold getCachedGeocode setCachedGeocode
  dsimp only
  rw [assocFind_upsert]

/-- C8 — counterexample.  Three successive 429 responses (the default
`retries = 2` exhausted) end with the transient failure WRITTEN to the
persistent `geocode_cache` table, with null coordinates — contradicting
"never written to the persistent geocode cache ... including after
retry exhaustion". -/
theorem claim8_counterexample :
    ((geocodeRun "700 H St" ⟨[], []⟩
      [.httpErr 429, .httpErr 429, .httpErr 429] 2).2.1).dbCache =
      [("700 h st", { error := some "HTTP 429" })] := by
  decide

/-- C8 — amended.  A 429 or a thrown network error with retries
remaining is retried and nothing is cached at that point; but once
retries are exhausted the failure result (null coordinates) IS written
to both the in-memory and the persistent cache, exactly like a
"no result" response.  A later lookup of the same address is then
served from the cache without contacting the service again, in the
no-result case and in the exhausted-transient case alike. -/
theorem claim8_amended (st : GeoState) (addr : String)
    (rest : List GeoOutcome) (r : Nat)
    (hne : ¬ jsTrim addr = "")
    (hmiss : (getCachedGeocode st addr).1 = none) :
    geocodeRun addr st (.httpErr 429 :: rest) (r + 1) =
      geocodeRun addr st rest r ∧
    geocodeRun addr st (.netErr "fetch failed" :: rest) (r + 1) =
      geocodeRun addr st rest r ∧
    geocodeRun addr st (.httpErr 429 :: rest) 0 =
      ({ error := some "HTTP 429" },
        setCachedGeocode st addr { error := some "HTTP 429" }, rest) ∧
    geocodeRun addr st (.netErr "fetch failed" :: rest) 0 =
      ({ error := some "fetch failed" },
        setCachedGeocode st addr { error := some "fetch failed" }, rest) ∧
    geocodeRun addr st (.ok [] :: rest) r =
      ({ error := some "No results found" },
        setCachedGeocode st addr { error := some "No results found" }, rest) ∧
    (∀ (v : GeoResult) (st2 : GeoState) (script : List GeoOutcome) (r2 : Nat),
      (getCachedGeocode st2 addr).1 = some v →
      geocodeRun addr st2 script r2 =
        (v, (getCachedGeocode st2 addr).2, script)) ∧
    (∀ v : GeoResult,
      (getCachedGeocode (setCachedGeocode st addr v) addr).1 = some v) := by
  have hc : getCachedGeocode st addr = (none, st) :=
    getCachedGeocode_miss st addr hmiss
  refine ⟨?_, ?_, ?_, ?_, ?_, ?_, fun v => getCachedGeocode_after_set st addr v⟩
  · conv_lhs => rw [geocodeRun]
    rw [if_neg hne, hc]
    rfl
  · conv_lhs => rw [geocodeRun]
    rw [if_neg hne, hc]
    rfl
  · conv_lhs => rw [geocodeRun]
    rw [if_neg hne, hc]
    rfl
  · conv_lhs => rw [geocodeRun]
    rw [if_neg hne, hc]
    rfl
  · conv_lhs => rw [geocodeRun]
    rw [if_neg hne, hc]
    cases r <;> rfl
  · intro v st2 script r2 hv
    conv_lhs => rw [geocodeRun]
    rw [if_neg hne,
      show getCachedGeocode st2 addr = (some v, (getCachedGeocode st2 addr).2) from by
        rw [← hv]]

/-- C8 — witness: a fresh no-result lookup on an empty cache is
persisted, and the follow-up lookup is answered from the cache with the
script untouched. -/
theorem claim8_witness :
    geocodeRun "1 A St" ⟨[], []⟩ [.ok []] 2 =
      ({ error := some "No results found" },
        setCachedGeocode ⟨[], []⟩ "1 A St" { error := some "No results found" },
        []) ∧
    geocodeRun "1 A St" ⟨[], []⟩ [.httpErr 429] 0 =
      ({ error := some "HTTP 429" },
        setCachedGeocode ⟨[], []⟩ "1 A St" { error := some "HTTP 429" }, []) :=
  ⟨(claim8_amended ⟨[], []⟩ "1 A St" [] 2 (by decide) (by decide)).2.2.2.2.1,
   (claim8_amended ⟨[], []⟩ "1 A St" [] 0 (by decide) (by decide)).2.2.1⟩

end RoofTracer
